import Mathlib

/-!
Verification of the coupon system core (models, repository, service).

Shallow embedding conventions:
- `time.Time` values are embedded as `Int` instants; Go's `t.After(u)` is
  `t > u` and `t.Before(u)` is `t < u`.
- `float64` money amounts are embedded as `ℚ` (the source performs only
  `*`, `/`, and comparisons on them).
- `uuid.UUID` values are embedded as `Nat` identifiers.
- The persistent store is a `Store` value (a list of coupons and the
  append-only usage ledger); repository reads are pure functions of it and
  the one repository write returns the new store or an error.
-/

namespace CouponSystem

/-- Usage types from `models` (`one_time`, `multi_use`, `time_based`). -/
inductive UsageType where
  | one_time
  | multi_use
  | time_based
deriving DecidableEq, Repr

/-- Discount types from `models` (`percentage`, `fixed`). -/
inductive DiscountType where
  | percentage
  | fixed
deriving DecidableEq, Repr

/-- An optional active time window (`models.TimeWindow`). -/
structure TimeWindow where
  StartTime : Int
  EndTime : Int
deriving DecidableEq, Repr

/-- A cart line / product (`models.Medicine`). -/
structure Medicine where
  ID : Nat
  Name : String
  Category : String
  Price : ℚ
deriving DecidableEq, Repr

/-- A product category (`models.Category`). -/
structure Category where
  ID : Nat
  Name : String
deriving DecidableEq, Repr

/-- A coupon (`models.Coupon`); the GORM bookkeeping fields
(`CreatedAt`, `UpdatedAt`, `DeletedAt`) play no role in the core logic and
are omitted. -/
structure Coupon where
  ID : Nat
  Code : String
  ExpiryDate : Int
  UsageType : UsageType
  DiscountType : DiscountType
  DiscountValue : ℚ
  MinOrderValue : ℚ
  MaxUsagePerUser : Int
  ValidTimeWindow : Option TimeWindow
  TermsAndConditions : String
  IsActive : Bool
  ApplicableMedicines : List Medicine
  ApplicableCategories : List Category
deriving DecidableEq, Repr

/-- A redemption record (`models.CouponUsage`); the timestamps do not
take part in any decision and are omitted. -/
structure CouponUsage where
  ID : Nat
  CouponID : Nat
  UserID : Nat
  OrderID : Nat
deriving DecidableEq, Repr

/-- Embedding of `(c *Coupon) IsValid(orderTotal float64, currentTime time.Time) bool`:
active, not after expiry, order total at least the minimum, and inside the
optional time window. -/
def Coupon.IsValid (c : Coupon) (orderTotal : ℚ) (currentTime : Int) : Bool :=
  if !c.IsActive then
    false
  else if currentTime > c.ExpiryDate then
    false
  else if orderTotal < c.MinOrderValue then
    false
  else
    match c.ValidTimeWindow with
    | some w =>
      if currentTime < w.StartTime || currentTime > w.EndTime then false else true
    | none => true

/-- Embedding of `(c *Coupon) CalculateDiscount(orderTotal float64) float64`:
percentage of the order total for percentage coupons, the raw value
otherwise. -/
def Coupon.CalculateDiscount (c : Coupon) (orderTotal : ℚ) : ℚ :=
  if c.DiscountType = DiscountType.percentage then
    orderTotal * (c.DiscountValue / 100)
  else
    c.DiscountValue

/-- Embedding of `isApplicableToCoupon(coupon models.Coupon, cartItems []models.Medicine) bool`
(the identical helper appears in both the service and the repository):
true when both restriction lists are empty, otherwise true when some cart
item matches an eligible medicine by ID or an eligible category by name. -/
def isApplicableToCoupon (coupon : Coupon) (cartItems : List Medicine) : Bool :=
  if coupon.ApplicableMedicines.isEmpty && coupon.ApplicableCategories.isEmpty then
    true
  else
    cartItems.any fun item =>
      (coupon.ApplicableMedicines.any fun medicine => decide (item.ID = medicine.ID)) ||
      (coupon.ApplicableCategories.any fun category => decide (item.Category = category.Name))

/-- The persistent store: the coupons table and the append-only usage
ledger. -/
structure Store where
  coupons : List Coupon
  usages : List CouponUsage
deriving DecidableEq, Repr

/-- Embedding of `CouponRepository.GetByCode`: the first coupon whose code
matches and which is active (`WHERE code = ? AND is_active = true`);
`gorm.ErrRecordNotFound` is mapped to `none`. -/
def getByCode (s : Store) (code : String) : Option Coupon :=
  s.coupons.find? fun c => decide (c.Code = code) && c.IsActive

/-- Embedding of `CouponRepository.GetUserCouponUsage`: the number of usage
records for the given `(couponID, userID)` pair. -/
def getUserCouponUsage (s : Store) (couponID userID : Nat) : Nat :=
  s.usages.countP fun u => decide (u.CouponID = couponID) && decide (u.UserID = userID)

/-- Embedding of `CouponRepository.GetApplicableCoupons`: the SQL filter
`is_active = true AND expiry_date > now AND min_order_value <= orderTotal`
followed by the in-memory `isApplicableToCoupon` filter. -/
def getApplicableCoupons (s : Store) (cartItems : List Medicine) (orderTotal : ℚ)
    (now : Int) : List Coupon :=
  let candidates := s.coupons.filter fun c =>
    c.IsActive && decide (c.ExpiryDate > now) && decide (c.MinOrderValue ≤ orderTotal)
  candidates.filter fun c => isApplicableToCoupon c cartItems

/-- The lookup at the head of `RecordCouponUsage`'s transaction
(`WHERE id = ? AND is_active = true`). -/
def findActiveByID (s : Store) (couponID : Nat) : Option Coupon :=
  s.coupons.find? fun c => decide (c.ID = couponID) && c.IsActive

/-- Error outcomes of `CouponRepository.RecordCouponUsage`'s transaction body:
the `gorm.ErrRecordNotFound` from the re-fetch of an inactive or missing
coupon, and the two explicit `errors.New` failures. -/
inductive UsageError where
  | RecordNotFound
  | AlreadyUsed
  | LimitExceeded
deriving DecidableEq, Repr

/-- The check phase of `RecordCouponUsage`'s transaction body, run against a
store state: re-fetch the coupon (active only), then test the one-time /
multi-use usage-count conditions.  Returns the error that aborts the
transaction, or `none` when the subsequent insert is reached. -/
def usageCheck (s : Store) (usage : CouponUsage) : Option UsageError :=
  match findActiveByID s usage.CouponID with
  | none => some UsageError.RecordNotFound
  | some coupon =>
    if coupon.UsageType = UsageType.one_time ∧
        0 < getUserCouponUsage s usage.CouponID usage.UserID then
      some UsageError.AlreadyUsed
    else if coupon.UsageType = UsageType.multi_use ∧
        (getUserCouponUsage s usage.CouponID usage.UserID : Int) ≥ coupon.MaxUsagePerUser then
      some UsageError.LimitExceeded
    else
      none

/-- The insert at the end of `RecordCouponUsage`'s transaction body
(`tx.Create(usage)`): append the record to the ledger. -/
def insertUsage (s : Store) (usage : CouponUsage) : Store :=
  { s with usages := s.usages ++ [usage] }

/-- Embedding of `CouponRepository.RecordCouponUsage` as executed without
interference: the transaction body's check phase against the current store,
then the insert; an error rolls the transaction back, so the caller's store
is unchanged on failure. -/
def recordCouponUsage (s : Store) (usage : CouponUsage) : Except UsageError Store :=
  match usageCheck s usage with
  | some e => Except.error e
  | none => Except.ok (insertUsage s usage)

/-- The store a caller observes after a `RecordCouponUsage` call: the
transaction commits the inserted record on success and rolls back on any
error, leaving the ledger unchanged. -/
def applyRecord (s : Store) (usage : CouponUsage) : Store :=
  match recordCouponUsage s usage with
  | Except.ok s2 => s2
  | Except.error _ => s

/-- Input of `CouponService.ValidateCoupon`. -/
structure ValidateCouponInput where
  Code : String
  CartItems : List Medicine
  OrderTotal : ℚ
  UserID : Nat
  Timestamp : Int
deriving DecidableEq, Repr

/-- Output of `CouponService.ValidateCoupon`. -/
structure ValidateCouponOutput where
  IsValid : Bool
  ItemsDiscount : ℚ
  ChargesDiscount : ℚ
  Message : String
deriving DecidableEq, Repr

/-- Embedding of `CouponService.ValidateCoupon`, threading the store state
through the repository calls it makes (`GetByCode`, `GetUserCouponUsage`,
both reads).  Infrastructure failures of the store are outside the
embedding; every domain outcome below is a successfully returned output,
exactly as in the source, where declined coupons produce `IsValid: false`
with a message and a nil error. -/
def validateCoupon (input : ValidateCouponInput) (s : Store) :
    ValidateCouponOutput × Store :=
  match getByCode s input.Code with
  | none => (⟨false, 0, 0, "coupon not found"⟩, s)
  | some coupon =>
    if !coupon.IsValid input.OrderTotal input.Timestamp then
      (⟨false, 0, 0, "coupon is not valid for this order"⟩, s)
    else if !isApplicableToCoupon coupon input.CartItems then
      (⟨false, 0, 0, "coupon is not applicable to any items in cart"⟩, s)
    else
      let usageCount := getUserCouponUsage s coupon.ID input.UserID
      if coupon.UsageType = UsageType.one_time ∧ 0 < usageCount then
        (⟨false, 0, 0, "one-time coupon already used"⟩, s)
      else if coupon.UsageType = UsageType.multi_use ∧
          (usageCount : Int) ≥ coupon.MaxUsagePerUser then
        (⟨false, 0, 0, "coupon usage limit exceeded"⟩, s)
      else
        (⟨true, coupon.CalculateDiscount input.OrderTotal, 0,
          "coupon applied successfully"⟩, s)

/-- Embedding of `CouponService.GetApplicableCoupons`, which delegates to the
repository. -/
def serviceGetApplicableCoupons (s : Store) (cartItems : List Medicine)
    (orderTotal : ℚ) (now : Int) : List Coupon :=
  getApplicableCoupons s cartItems orderTotal now

/-- Two `RecordCouponUsage` calls racing on the same store under the
interleaving in which both transactions run their count queries before
either commits its insert.  The source's transaction takes no row locks
before counting and the default isolation level does not serialize a
count-then-insert against a concurrent one, so each check observes the
initial ledger; a session whose check passed then inserts. -/
def raceBothChecksFirst (s : Store) (u1 u2 : CouponUsage) :
    (Option UsageError × Option UsageError) × Store :=
  let r1 := usageCheck s u1
  let r2 := usageCheck s u2
  let s1 := if r1 = none then insertUsage s u1 else s
  let s2 := if r2 = none then insertUsage s1 u2 else s1
  ((r1, r2), s2)

/-- Example: the `SAVE20` coupon of the end-to-end scenario (multi-use,
percentage 20, min order 100, max 5 per user, unrestricted). -/
def save20 : Coupon :=
  { ID := 1, Code := "SAVE20", ExpiryDate := 1000,
    UsageType := UsageType.multi_use, DiscountType := DiscountType.percentage,
    DiscountValue := 20, MinOrderValue := 100, MaxUsagePerUser := 5,
    ValidTimeWindow := none, TermsAndConditions := "", IsActive := true,
    ApplicableMedicines := [], ApplicableCategories := [] }

/-- Example: a fixed-50 coupon. -/
def fixed50 : Coupon :=
  { save20 with
    ID := 2, Code := "FLAT50",
    DiscountType := DiscountType.fixed, DiscountValue := 50 }

/-- Example: an inactive coupon (otherwise identical to `save20`). -/
def inactiveSave20 : Coupon :=
  { save20 with IsActive := false }

/-- Example: a one-time coupon. -/
def oneTimeCoupon : Coupon :=
  { save20 with
    ID := 3, Code := "ONCE", UsageType := UsageType.one_time,
    MinOrderValue := 0 }

/-- Example: a time-based coupon. -/
def timeBasedCoupon : Coupon :=
  { save20 with
    ID := 4, Code := "HAPPYHOUR", UsageType := UsageType.time_based,
    MinOrderValue := 0, MaxUsagePerUser := 1 }

/-- Example: a coupon restricted to the category `painkiller`. -/
def painkillerCoupon : Coupon :=
  { save20 with
    ID := 5, Code := "PAIN10",
    ApplicableCategories := [{ ID := 50, Name := "painkiller" }] }

/-- Example: an active unrestricted coupon whose expiry instant is exactly 100. -/
def couponAtExpiry : Coupon :=
  { save20 with ID := 6, Code := "EDGE", ExpiryDate := 100, MinOrderValue := 0 }

/-- Example: a usage record for `(coupon 3, user 7)` from order 100. -/
def usageA : CouponUsage := { ID := 10, CouponID := 3, UserID := 7, OrderID := 100 }

/-- Example: a second usage record for `(coupon 3, user 7)` from order 101. -/
def usageB : CouponUsage := { ID := 11, CouponID := 3, UserID := 7, OrderID := 101 }

/-- Example: a usage record for `(coupon 1, user 7)`. -/
def usageSave20 : CouponUsage := { ID := 12, CouponID := 1, UserID := 7, OrderID := 102 }

/-- Example: a usage record for `(coupon 4, user 7)`. -/
def usageTB (n : Nat) : CouponUsage :=
  { ID := 20 + n, CouponID := 4, UserID := 7, OrderID := 200 + n }

/-- Example store holding the one-time coupon and an empty ledger. -/
def storeOneTime : Store := { coupons := [oneTimeCoupon], usages := [] }

/-- Example store whose only coupon is the inactive copy of `save20`. -/
def storeInactive : Store := { coupons := [inactiveSave20], usages := [] }

/-- Example store holding the one-time coupon already used once by user 7. -/
def storeOneTimeUsed : Store := { coupons := [oneTimeCoupon], usages := [usageA] }

/-- Example store for the end-to-end scenario: `save20` with one prior usage
by user 7. -/
def storeSave20 : Store := { coupons := [save20], usages := [usageSave20] }

/-- Example store holding only the coupon whose expiry instant is exactly 100. -/
def storeAtExpiry : Store := { coupons := [couponAtExpiry], usages := [] }

/-- Example store holding the time-based coupon with three prior usages by
user 7. -/
def storeTimeBased : Store :=
  { coupons := [timeBasedCoupon], usages := [usageTB 0, usageTB 1, usageTB 2] }

/-- Example validation input: code `SAVE20`, empty cart, order total 700,
user 7, time 5. -/
def inputSave20 : ValidateCouponInput :=
  { Code := "SAVE20", CartItems := [], OrderTotal := 700, UserID := 7, Timestamp := 5 }

/-- Example cart: one painkiller item. -/
def cartPainkiller : List Medicine :=
  [{ ID := 30, Name := "Ibuprofen", Category := "painkiller", Price := 120 }]

/-- C3: `Coupon.IsValid orderTotal now` is true exactly when the coupon is
active, `now` is not after the expiry date (exactly-at-expiry is still
valid), the order total is at least the minimum, and `now` lies inside the
optional time window inclusively at both ends; in particular an inactive
coupon is never valid.  (Purity holds by construction: the embedding is a
function of the coupon and the two arguments alone, as is the source
method.) -/
theorem IsValid_characterization (c : Coupon) (orderTotal : ℚ) (now : Int) :
    (c.IsValid orderTotal now = true ↔
      c.IsActive = true ∧ now ≤ c.ExpiryDate ∧ c.MinOrderValue ≤ orderTotal ∧
      ∀ w, c.ValidTimeWindow = some w → w.StartTime ≤ now ∧ now ≤ w.EndTime) ∧
    (c.IsActive = false → c.IsValid orderTotal now = false) := by
  have main : c.IsValid orderTotal now = true ↔
      c.IsActive = true ∧ now ≤ c.ExpiryDate ∧ c.MinOrderValue ≤ orderTotal ∧
      ∀ w, c.ValidTimeWindow = some w → w.StartTime ≤ now ∧ now ≤ w.EndTime := by
    unfold Coupon.IsValid
    cases hw : c.ValidTimeWindow <;>
      cases hA : c.IsActive <;>
        split_ifs <;> simp_all [not_lt]
  refine ⟨main, fun hA => ?_⟩
  rcases h : c.IsValid orderTotal now with _ | _
  · rfl
  · exact absurd (main.mp h).1 (by simp [hA])

/-- Witness for C3 at a concrete input: the inactive copy of `save20` is
reported invalid for a 700 order at time 5. -/
theorem IsValid_characterization_witness :
    inactiveSave20.IsValid 700 5 = false :=
  (IsValid_characterization inactiveSave20 700 5).2 rfl

/-- C4: the applicability matcher accepts every cart when both restriction
lists are empty, and otherwise accepts exactly the carts containing an item
whose ID equals some eligible medicine's ID or whose category string equals
some eligible category's name. -/
theorem isApplicable_characterization (c : Coupon) (cartItems : List Medicine) :
    isApplicableToCoupon c cartItems = true ↔
      (c.ApplicableMedicines = [] ∧ c.ApplicableCategories = []) ∨
      ∃ item ∈ cartItems,
        (∃ m ∈ c.ApplicableMedicines, item.ID = m.ID) ∨
        (∃ cat ∈ c.ApplicableCategories, item.Category = cat.Name) := by
  unfold isApplicableToCoupon
  by_cases h : c.ApplicableMedicines = [] ∧ c.ApplicableCategories = []
  · simp [h.1, h.2]
  · have hne : (c.ApplicableMedicines.isEmpty && c.ApplicableCategories.isEmpty) = false := by
      rcases not_and_or.mp h with h1 | h1 <;>
        simp [List.isEmpty_iff, h1]
    rw [hne]
    simp only [Bool.false_eq_true, if_false, List.any_eq_true, Bool.or_eq_true,
      decide_eq_true_eq]
    constructor
    · rintro ⟨item, hitem, hmatch⟩
      exact Or.inr ⟨item, hitem, hmatch⟩
    · rintro (habs | ⟨item, hitem, hmatch⟩)
      · exact absurd habs h
      · exact ⟨item, hitem, hmatch⟩

/-- Witness for C4 at a concrete input: the painkiller-restricted coupon
matches a cart holding one painkiller item. -/
theorem isApplicable_characterization_witness :
    isApplicableToCoupon painkillerCoupon cartPainkiller = true :=
  (isApplicable_characterization painkillerCoupon cartPainkiller).mpr
    (Or.inr ⟨{ ID := 30, Name := "Ibuprofen", Category := "painkiller", Price := 120 },
      by simp [cartPainkiller],
      Or.inr ⟨{ ID := 50, Name := "painkiller" }, by simp [painkillerCoupon, save20], rfl⟩⟩)

/-- C5: discount computation is `orderTotal * (value / 100)` for percentage
coupons and the raw value (uncapped) for fixed coupons; concretely a 20%
coupon on 700 yields 140 and a fixed-50 coupon on 700 yields 50. -/
theorem CalculateDiscount_spec (c : Coupon) (orderTotal : ℚ) :
    (c.DiscountType = DiscountType.percentage →
      c.CalculateDiscount orderTotal = orderTotal * (c.DiscountValue / 100)) ∧
    (c.DiscountType = DiscountType.fixed →
      c.CalculateDiscount orderTotal = c.DiscountValue) ∧
    save20.CalculateDiscount 700 = 140 ∧
    fixed50.CalculateDiscount 700 = 50 := by
  refine ⟨fun h => ?_, fun h => ?_, ?_, ?_⟩
  · simp [Coupon.CalculateDiscount, h]
  · simp [Coupon.CalculateDiscount, h]
  · norm_num [Coupon.CalculateDiscount, save20]
  · have hfix : fixed50.DiscountType = DiscountType.fixed := rfl
    have hval : fixed50.DiscountValue = 50 := rfl
    simp [Coupon.CalculateDiscount, hfix, hval]

/-- Witness for C5 at a concrete input: the fixed-50 coupon's discount on a
700 order is its raw value. -/
theorem CalculateDiscount_spec_witness :
    fixed50.CalculateDiscount 700 = fixed50.DiscountValue :=
  (CalculateDiscount_spec fixed50 700).2.1 rfl

/-- C10: an unrestricted coupon (both restriction lists empty) is applicable
even to the empty cart, while every restricted coupon is inapplicable to
the empty cart. -/
theorem emptyCart_applicability (c : Coupon) :
    (c.ApplicableMedicines = [] → c.ApplicableCategories = [] →
      isApplicableToCoupon c [] = true) ∧
    ((c.ApplicableMedicines ≠ [] ∨ c.ApplicableCategories ≠ []) →
      isApplicableToCoupon c [] = false) := by
  constructor
  · intro h1 h2
    simp [isApplicableToCoupon, h1, h2]
  · intro h
    have hne : (c.ApplicableMedicines.isEmpty && c.ApplicableCategories.isEmpty) = false := by
      rcases h with h1 | h1 <;> simp [List.isEmpty_iff, h1]
    simp [isApplicableToCoupon, hne]

/-- Witness for C10 at concrete inputs: the unrestricted `save20` matches the
empty cart and the painkiller-restricted coupon does not. -/
theorem emptyCart_applicability_witness :
    isApplicableToCoupon save20 [] = true ∧
    isApplicableToCoupon painkillerCoupon [] = false :=
  ⟨(emptyCart_applicability save20).1 rfl rfl,
   (emptyCart_applicability painkillerCoupon).2
     (Or.inr (by simp [painkillerCoupon, save20]))⟩

/-- C1: `recordCouponUsage` re-fetches the coupon (active only) and fails
with `RecordNotFound` when no active coupon with that ID exists; for a
one-time coupon it fails with `AlreadyUsed` exactly when the count of prior
records for `(couponID, userID)` is positive; for a multi-use coupon it
fails with `LimitExceeded` exactly when that count is at least
`MaxUsagePerUser`; in every other case it appends exactly one new record
(leaving the coupons table untouched); and on any error the transaction
rolls back, so the caller's store is unchanged. -/
theorem recordCouponUsage_spec (s : Store) (u : CouponUsage) :
    (findActiveByID s u.CouponID = none →
      recordCouponUsage s u = Except.error UsageError.RecordNotFound) ∧
    (∀ c, findActiveByID s u.CouponID = some c →
      ((c.UsageType = UsageType.one_time →
        (recordCouponUsage s u = Except.error UsageError.AlreadyUsed ↔
          0 < getUserCouponUsage s u.CouponID u.UserID)) ∧
       (c.UsageType = UsageType.multi_use →
        (recordCouponUsage s u = Except.error UsageError.LimitExceeded ↔
          (getUserCouponUsage s u.CouponID u.UserID : Int) ≥ c.MaxUsagePerUser)) ∧
       (¬(c.UsageType = UsageType.one_time ∧
            0 < getUserCouponUsage s u.CouponID u.UserID) →
        ¬(c.UsageType = UsageType.multi_use ∧
            (getUserCouponUsage s u.CouponID u.UserID : Int) ≥ c.MaxUsagePerUser) →
        recordCouponUsage s u = Except.ok { s with usages := s.usages ++ [u] }))) ∧
    (∀ s2, recordCouponUsage s u = Except.ok s2 →
      s2.usages = s.usages ++ [u] ∧ s2.coupons = s.coupons) ∧
    (∀ e, recordCouponUsage s u = Except.error e → applyRecord s u = s) := by
  cases hf : findActiveByID s u.CouponID with
  | none =>
    refine ⟨fun _ => ?_, fun c hc => by simp [hf] at hc, fun s2 hs2 => ?_, fun e he => ?_⟩
    · simp [recordCouponUsage, usageCheck, hf]
    · simp [recordCouponUsage, usageCheck, hf] at hs2
    · simp [applyRecord, recordCouponUsage, usageCheck, hf]
  | some c =>
    have heq : recordCouponUsage s u =
        if c.UsageType = UsageType.one_time ∧
            0 < getUserCouponUsage s u.CouponID u.UserID then
          Except.error UsageError.AlreadyUsed
        else if c.UsageType = UsageType.multi_use ∧
            (getUserCouponUsage s u.CouponID u.UserID : Int) ≥ c.MaxUsagePerUser then
          Except.error UsageError.LimitExceeded
        else
          Except.ok { s with usages := s.usages ++ [u] } := by
      simp [recordCouponUsage, usageCheck, hf, insertUsage]
      split_ifs <;> rfl
    refine ⟨fun habs => by simp [hf] at habs, fun c2 hc2 => ?_, fun s2 hs2 => ?_,
      fun e he => ?_⟩
    · have hcc : c2 = c := (Option.some.inj hc2).symm
      subst hcc
      rw [heq]
      refine ⟨fun hone => ?_, fun hmulti => ?_, fun hno1 hno2 => ?_⟩
      · constructor
        · intro hres
          by_cases hcount : 0 < getUserCouponUsage s u.CouponID u.UserID
          · exact hcount
          · rw [if_neg (fun hand => hcount hand.2)] at hres
            split_ifs at hres
            simp at hres
        · intro hcount
          rw [if_pos ⟨hone, hcount⟩]
      · constructor
        · intro hres
          by_cases hge : (getUserCouponUsage s u.CouponID u.UserID : Int) ≥ c2.MaxUsagePerUser
          · exact hge
          · rw [if_neg (fun hand => by simp [hmulti] at hand), if_neg (fun hand => hge hand.2)] at hres
            simp at hres
        · intro hge
          rw [if_neg (fun hand => by simp [hmulti] at hand), if_pos ⟨hmulti, hge⟩]
      · rw [if_neg hno1, if_neg hno2]
    · rw [heq] at hs2
      split_ifs at hs2
      have h2 := Except.ok.inj hs2
      subst h2
      exact ⟨rfl, rfl⟩
    · unfold applyRecord
      rw [he]

/-- Witness for C1 at a concrete input: redeeming the one-time coupon a
second time for user 7 fails with `AlreadyUsed`. -/
theorem recordCouponUsage_spec_witness :
    recordCouponUsage storeOneTimeUsed usageB = Except.error UsageError.AlreadyUsed :=
  (((recordCouponUsage_spec storeOneTimeUsed usageB).2.1 oneTimeCoupon rfl).1 rfl).mpr
    (by decide)

/-- C2 (violated by the code): under the interleaving in which two
concurrent `RecordCouponUsage` transactions for the same one-time coupon
and user both run their count query before either insert commits, both
checks pass, both calls succeed, and the ledger ends with two records for
the pair — the claimed exactly-one-success atomicity fails; run serially
the same two calls do yield one success and one `AlreadyUsed`. -/
theorem oneTime_race_double_redemption :
    oneTimeCoupon.UsageType = UsageType.one_time ∧
    getUserCouponUsage storeOneTime 3 7 = 0 ∧
    raceBothChecksFirst storeOneTime usageA usageB =
      ((none, none), { coupons := [oneTimeCoupon], usages := [usageA, usageB] }) ∧
    getUserCouponUsage (raceBothChecksFirst storeOneTime usageA usageB).2 3 7 = 2 ∧
    recordCouponUsage storeOneTime usageA =
      Except.ok { coupons := [oneTimeCoupon], usages := [usageA] } ∧
    recordCouponUsage { coupons := [oneTimeCoupon], usages := [usageA] } usageB =
      Except.error UsageError.AlreadyUsed := by
  exact ⟨rfl, rfl, rfl, rfl, rfl, rfl⟩

/-- C6: `validateCoupon` runs lookup, validity, applicability and usage
checks in that order and short-circuits at the first failure (each branch
below fixes the earlier checks and assumes nothing about the later ones);
an inactive coupon yields exactly the not-found outcome; every declined
outcome is an ordinary returned output with `IsValid := false` and a
message (the function is total over the store — only infrastructure
failures, which lie outside the embedding, become Go errors). -/
theorem validateCoupon_pipeline (input : ValidateCouponInput) (s : Store) :
    (getByCode s input.Code = none →
      (validateCoupon input s).1 = ⟨false, 0, 0, "coupon not found"⟩) ∧
    ((∀ c ∈ s.coupons, c.Code = input.Code → c.IsActive = false) →
      (validateCoupon input s).1 = ⟨false, 0, 0, "coupon not found"⟩) ∧
    (∀ c, getByCode s input.Code = some c →
      c.IsValid input.OrderTotal input.Timestamp = false →
      (validateCoupon input s).1 = ⟨false, 0, 0, "coupon is not valid for this order"⟩) ∧
    (∀ c, getByCode s input.Code = some c →
      c.IsValid input.OrderTotal input.Timestamp = true →
      isApplicableToCoupon c input.CartItems = false →
      (validateCoupon input s).1 =
        ⟨false, 0, 0, "coupon is not applicable to any items in cart"⟩) ∧
    (∀ c, getByCode s input.Code = some c →
      c.IsValid input.OrderTotal input.Timestamp = true →
      isApplicableToCoupon c input.CartItems = true →
      c.UsageType = UsageType.one_time →
      0 < getUserCouponUsage s c.ID input.UserID →
      (validateCoupon input s).1 = ⟨false, 0, 0, "one-time coupon already used"⟩) ∧
    (∀ c, getByCode s input.Code = some c →
      c.IsValid input.OrderTotal input.Timestamp = true →
      isApplicableToCoupon c input.CartItems = true →
      c.UsageType = UsageType.multi_use →
      (getUserCouponUsage s c.ID input.UserID : Int) ≥ c.MaxUsagePerUser →
      (validateCoupon input s).1 = ⟨false, 0, 0, "coupon usage limit exceeded"⟩) ∧
    (∀ c, getByCode s input.Code = some c →
      c.IsValid input.OrderTotal input.Timestamp = true →
      isApplicableToCoupon c input.CartItems = true →
      ¬(c.UsageType = UsageType.one_time ∧ 0 < getUserCouponUsage s c.ID input.UserID) →
      ¬(c.UsageType = UsageType.multi_use ∧
          (getUserCouponUsage s c.ID input.UserID : Int) ≥ c.MaxUsagePerUser) →
      (validateCoupon input s).1 = ⟨true, c.CalculateDiscount input.OrderTotal, 0,
        "coupon applied successfully"⟩) := by
  have hnotfound : getByCode s input.Code = none →
      (validateCoupon input s).1 = ⟨false, 0, 0, "coupon not found"⟩ := by
    intro h
    simp [validateCoupon, h]
  refine ⟨hnotfound, ?_, ?_, ?_, ?_, ?_, ?_⟩
  · intro h
    apply hnotfound
    unfold getByCode
    rw [List.find?_eq_none]
    intro x hx
    simp only [Bool.and_eq_true, decide_eq_true_eq, not_and]
    intro hcode
    simp [h x hx hcode]
  · intro c hc hvalid
    simp [validateCoupon, hc, hvalid]
  · intro c hc hvalid happ
    simp [validateCoupon, hc, hvalid, happ]
  · intro c hc hvalid happ hone hcount
    simp only [validateCoupon, hc, hvalid, happ, Bool.not_true, Bool.false_eq_true,
      if_false]
    rw [if_pos ⟨hone, hcount⟩]
  · intro c hc hvalid happ hmulti hge
    simp only [validateCoupon, hc, hvalid, happ, Bool.not_true, Bool.false_eq_true,
      if_false]
    rw [if_neg (fun hand => by simp [hmulti] at hand), if_pos ⟨hmulti, hge⟩]
  · intro c hc hvalid happ hno1 hno2
    simp only [validateCoupon, hc, hvalid, happ, Bool.not_true, Bool.false_eq_true,
      if_false]
    rw [if_neg hno1, if_neg hno2]

/-- Witness for C6 at a concrete input: with the only matching coupon
inactive, validation returns the not-found outcome as an ordinary result. -/
theorem validateCoupon_pipeline_witness :
    (validateCoupon inputSave20 storeInactive).1 = ⟨false, 0, 0, "coupon not found"⟩ :=
  (validateCoupon_pipeline inputSave20 storeInactive).2.1 (by decide)

/-- C7: `validateCoupon` never writes to the store (the second component of
its result is the input store), so repeating a validation returns the same
result; concretely, validating `SAVE20` for a 700 order with one prior
usage of five allowed is valid with discount 140, and the store is
untouched (so validating again yields 140 again). -/
theorem validateCoupon_no_write :
    (∀ input s, (validateCoupon input s).2 = s) ∧
    (∀ input s,
      validateCoupon input (validateCoupon input s).2 = validateCoupon input s) ∧
    validateCoupon inputSave20 storeSave20 =
      (⟨true, 140, 0, "coupon applied successfully"⟩, storeSave20) := by
  have hstate : ∀ input s, (validateCoupon input s).2 = s := by
    intro input s
    cases hc : getByCode s input.Code with
    | none => simp [validateCoupon, hc]
    | some c =>
      simp only [validateCoupon, hc]
      split_ifs <;> rfl
  refine ⟨hstate, fun input s => by rw [hstate], ?_⟩
  have hc : getByCode storeSave20 inputSave20.Code = some save20 := rfl
  have hv : save20.IsValid inputSave20.OrderTotal inputSave20.Timestamp = true := by decide
  have ha : isApplicableToCoupon save20 inputSave20.CartItems = true := rfl
  have hcount : getUserCouponUsage storeSave20 save20.ID inputSave20.UserID = 1 := rfl
  have hdisc : save20.CalculateDiscount inputSave20.OrderTotal = 140 := by
    norm_num [Coupon.CalculateDiscount, save20, inputSave20]
  have hno1 : ¬(save20.UsageType = UsageType.one_time ∧
      0 < getUserCouponUsage storeSave20 save20.ID inputSave20.UserID) := by
    intro h
    exact absurd h.1 (by decide)
  have hno2 : ¬(save20.UsageType = UsageType.multi_use ∧
      (getUserCouponUsage storeSave20 save20.ID inputSave20.UserID : Int) ≥
        save20.MaxUsagePerUser) := by
    intro h
    have h2 := h.2
    rw [hcount] at h2
    exact absurd h2 (by decide)
  simp only [validateCoupon, hc, hv, ha, Bool.not_true, Bool.false_eq_true, if_false]
  rw [if_neg hno1, if_neg hno2, hdisc]

/-- C8 counterexample: the claim ties the listing's expiry bound to the
validity predicate's (at-expiry still valid), but the SQL filter is strict:
an active, applicable, minimum-satisfying coupon whose expiry instant
equals `now` passes `IsValid` yet is not listed by
`getApplicableCoupons`. -/
theorem getApplicableCoupons_expiry_bound_counterexample :
    couponAtExpiry ∈ storeAtExpiry.coupons ∧
    couponAtExpiry.IsActive = true ∧
    couponAtExpiry.IsValid 700 100 = true ∧
    couponAtExpiry.MinOrderValue ≤ 700 ∧
    isApplicableToCoupon couponAtExpiry [] = true ∧
    getApplicableCoupons storeAtExpiry [] 700 100 = [] := by
  refine ⟨?_, rfl, by decide, by decide, rfl, rfl⟩
  simp [storeAtExpiry]

/-- C8 amended: `getApplicableCoupons` returns exactly the stored coupons
that are active, strictly unexpired (`now < ExpiryDate`, so a coupon exactly
at its expiry instant is excluded, unlike under the validity predicate),
satisfy `MinOrderValue ≤ orderTotal`, and match the cart; the usage ledger
is never consulted (the result is invariant under replacing it). -/
theorem getApplicableCoupons_characterization (s : Store) (cartItems : List Medicine)
    (orderTotal : ℚ) (now : Int) :
    (∀ c, c ∈ getApplicableCoupons s cartItems orderTotal now ↔
      (c ∈ s.coupons ∧ c.IsActive = true ∧ now < c.ExpiryDate ∧
        c.MinOrderValue ≤ orderTotal ∧ isApplicableToCoupon c cartItems = true)) ∧
    (∀ ledger, getApplicableCoupons { coupons := s.coupons, usages := ledger }
        cartItems orderTotal now = getApplicableCoupons s cartItems orderTotal now) := by
  constructor
  · intro c
    simp only [getApplicableCoupons, List.mem_filter, Bool.and_eq_true,
      decide_eq_true_eq, gt_iff_lt]
    tauto
  · intro ledger
    rfl

/-- Witness for C8 (amended) at a concrete input: `save20` is listed for a
700 order at time 5. -/
theorem getApplicableCoupons_characterization_witness :
    save20 ∈ getApplicableCoupons storeSave20 [] 700 5 :=
  ((getApplicableCoupons_characterization storeSave20 [] 700 5).1 save20).mpr
    ⟨by simp [storeSave20], rfl, by decide, by decide, rfl⟩

/-- C9: time-based coupons are never subject to a per-user usage limit:
`recordCouponUsage` appends a record for an active time-based coupon
regardless of the ledger's contents (no hypothesis on the prior count), and
`validateCoupon` accepts a found, valid, applicable time-based coupon
regardless of the user's usage count — `MaxUsagePerUser` is ignored. -/
theorem timeBased_no_usage_limit (s : Store) (u : CouponUsage) (c : Coupon)
    (input : ValidateCouponInput) :
    (findActiveByID s u.CouponID = some c → c.UsageType = UsageType.time_based →
      recordCouponUsage s u = Except.ok { s with usages := s.usages ++ [u] }) ∧
    (getByCode s input.Code = some c → c.UsageType = UsageType.time_based →
      c.IsValid input.OrderTotal input.Timestamp = true →
      isApplicableToCoupon c input.CartItems = true →
      (validateCoupon input s).1 = ⟨true, c.CalculateDiscount input.OrderTotal, 0,
        "coupon applied successfully"⟩) := by
  constructor
  · intro hf htb
    simp only [recordCouponUsage, usageCheck, hf, insertUsage]
    rw [if_neg (fun h => by simp [htb] at h), if_neg (fun h => by simp [htb] at h)]
  · intro hc htb hv ha
    simp only [validateCoupon, hc, hv, ha, Bool.not_true, Bool.false_eq_true, if_false]
    rw [if_neg (fun h => by simp [htb] at h), if_neg (fun h => by simp [htb] at h)]

/-- Witness for C9 at a concrete input: with three prior usages by user 7
(far above `MaxUsagePerUser = 1`), a fourth redemption of the time-based
coupon still succeeds and validation still accepts it with discount 140. -/
theorem timeBased_no_usage_limit_witness :
    getUserCouponUsage storeTimeBased 4 7 = 3 ∧
    recordCouponUsage storeTimeBased (usageTB 3) =
      Except.ok { coupons := [timeBasedCoupon],
                  usages := [usageTB 0, usageTB 1, usageTB 2, usageTB 3] } ∧
    (validateCoupon ⟨"HAPPYHOUR", [], 700, 7, 5⟩ storeTimeBased).1 =
      ⟨true, 140, 0, "coupon applied successfully"⟩ := by
  refine ⟨rfl, ?_, ?_⟩
  · exact (timeBased_no_usage_limit storeTimeBased (usageTB 3) timeBasedCoupon
      ⟨"HAPPYHOUR", [], 700, 7, 5⟩).1 rfl rfl
  · have h := (timeBased_no_usage_limit storeTimeBased (usageTB 3) timeBasedCoupon
      ⟨"HAPPYHOUR", [], 700, 7, 5⟩).2 rfl rfl (by decide) rfl
    rw [h]
    norm_num [Coupon.CalculateDiscount, timeBasedCoupon, save20]

end CouponSystem
